import Mathlib

/-!
Verification of the MCP OAuth server blueprint (`src/mcp_server/`):
a shallow embedding of `config.py`, `oauth_handler.py` and the OAuth
routes of `server.py`, with theorems about the OAuth state machine.

Modelling conventions:
- Python `str | None` fields become `Option String`; Python truthiness
  (`if not x:`) on such a field is `strTruthy`.
- Randomness (`secrets.token_urlsafe(n)`) is made explicit: the random
  bytes are a parameter of the function that consumes them.
- The SHA-256 primitive (`hashlib` via authlib's
  `create_s256_code_challenge`) is outside this repository; it is passed
  as an explicit function parameter `sha256 : String → List Nat`.
- Upstream HTTP exchanges (`AsyncOAuth2Client.fetch_token` /
  `refresh_token`) are modelled by a parameter
  `upstream : TokenRequest → Except String TokenResponse` describing
  what the token endpoint would answer to a given request.
- Timestamps (`datetime.now()`) are `Nat` minutes; `timedelta(minutes=n)`
  is `+ n`.
-/

namespace MCPOAuth

/-! ## Configuration (`config.py`) -/

/-- Embedding of `Settings` from `config.py`, restricted to the fields the OAuth core
reads; the default values are the field defaults in the source. -/
structure Settings where
  oauth_client_id : String := ""
  oauth_client_secret : String := ""
  oauth_authorization_url : String := "https://github.com/login/oauth/authorize"
  oauth_token_url : String := "https://github.com/login/oauth/access_token"
  oauth_scopes : String := "read:user"
  api_base_url : String := "https://api.github.com"
  oauth_redirect_uri : String := "http://localhost:8000/oauth/callback"
  deriving DecidableEq, Repr

/-- The settings object with every field left at its source-code default
(no environment overrides). -/
def defaultSettings : Settings := {}

/-- Embedding of `Settings.oauth_scopes_list`: comma-split, stripped, empties dropped. -/
def Settings.oauth_scopes_list (s : Settings) : List String :=
  ((s.oauth_scopes.splitOn ",").map String.trim).filter (fun x => x ≠ "")

/-! ## Base64url and PKCE (`oauth_handler.generate_pkce_pair`)

`secrets.token_urlsafe(n)` is `base64.urlsafe_b64encode(os.urandom(n))`
with the `=` padding stripped; authlib's `create_s256_code_challenge`
is `urlsafe_b64encode(sha256(verifier)).rstrip("=")`. -/

/-- The 64-character base64url alphabet. -/
def base64urlAlphabet : List Char :=
  "ABCDEFGHIJKLMNOPQRSTUVWXYZabcdefghijklmnopqrstuvwxyz0123456789-_".toList

/-- Digit `n` of the base64url alphabet. -/
def b64urlChar (n : Nat) : Char := base64urlAlphabet.getD n 'A'

/-- Base64url-encode a byte list, without padding: 3 input bytes become
4 output characters; a 1- or 2-byte tail becomes 2 or 3 characters and
no `=` is emitted. -/
def b64urlEncode : List Nat → List Char
  | [] => []
  | [b1] => [b64urlChar (b1 / 4), b64urlChar (b1 % 4 * 16)]
  | [b1, b2] => [b64urlChar (b1 / 4), b64urlChar (b1 % 4 * 16 + b2 / 16),
      b64urlChar (b2 % 16 * 4)]
  | b1 :: b2 :: b3 :: rest =>
      b64urlChar (b1 / 4) :: b64urlChar (b1 % 4 * 16 + b2 / 16) ::
      b64urlChar (b2 % 16 * 4 + b3 / 64) :: b64urlChar (b3 % 64) :: b64urlEncode rest

/-- Embedding of `secrets.token_urlsafe`: base64url text (no padding) of the random
bytes drawn by the caller. -/
def token_urlsafe (randomBytes : List Nat) : String :=
  String.mk (b64urlEncode randomBytes)

/-- authlib `create_s256_code_challenge`: base64url, without padding, of
the SHA-256 digest of the verifier. -/
def create_s256_code_challenge (sha256 : String → List Nat) (verifier : String) : String :=
  String.mk (b64urlEncode (sha256 verifier))

/-- An unreserved URL character per RFC 3986 (letters, digits, `-._~`). -/
def isUnreservedUrlChar (c : Char) : Bool :=
  c.isAlpha || c.isDigit || c == '-' || c == '.' || c == '_' || c == '~'

/-! ## OAuth handler state (`oauth_handler.OAuthHandler`) -/

/-- The `OAuthHandler` instance fields. -/
structure OAuthHandler where
  client_id : String
  client_secret : String
  authorization_url : String
  token_url : String
  scopes : List String
  resource_uri : String
  access_token : Option String := none
  refresh_token : Option String := none
  deriving DecidableEq, Repr

/-- Python truthiness of a `str | None` value: `None` and `""` are falsy. -/
def strTruthy : Option String → Bool
  | none => false
  | some s => s ≠ ""

/-- Embedding of `OAuthHandler.__init__`: copies settings; `resource_uri or
settings.api_base_url` falls back on a `None` or empty argument. -/
def OAuthHandler.init (s : Settings) (resource_uri : Option String) : OAuthHandler :=
  { client_id := s.oauth_client_id
    client_secret := s.oauth_client_secret
    authorization_url := s.oauth_authorization_url
    token_url := s.oauth_token_url
    scopes := s.oauth_scopes_list
    resource_uri := if strTruthy resource_uri then resource_uri.getD "" else s.api_base_url
    access_token := none
    refresh_token := none }

/-- Embedding of `OAuthHandler.generate_pkce_pair`: verifier is
`secrets.token_urlsafe(64)` (the caller supplies the 64 random bytes),
challenge is `create_s256_code_challenge(verifier)`. -/
def generate_pkce_pair (sha256 : String → List Nat) (randomBytes : List Nat) :
    String × String :=
  let code_verifier := token_urlsafe randomBytes
  let code_challenge := create_s256_code_challenge sha256 code_verifier
  (code_verifier, code_challenge)

/-! ## urlencode (`urllib.parse.urlencode` with `quote_plus`) -/

/-- Uppercase hex digit. -/
def hexDigit (n : Nat) : Char := "0123456789ABCDEF".toList.getD n '0'

/-- UTF-8 bytes of a code point. -/
def utf8Bytes (n : Nat) : List Nat :=
  if n < 128 then [n]
  else if n < 2048 then [192 + n / 64, 128 + n % 64]
  else if n < 65536 then [224 + n / 4096, 128 + n / 64 % 64, 128 + n % 64]
  else [240 + n / 262144, 128 + n / 4096 % 64, 128 + n / 64 % 64, 128 + n % 64]

/-- Percent escape (`%XX`) of one byte. -/
def percentByte (b : Nat) : List Char := ['%', hexDigit (b / 16), hexDigit (b % 16)]

/-- A character `quote_plus` leaves unescaped: letters, digits, `_.-~`. -/
def isQuoteSafe (c : Char) : Bool :=
  c.isAlpha || c.isDigit || c == '_' || c == '.' || c == '-' || c == '~'

/-- Embedding of `urllib.parse.quote_plus` on one character. -/
def quotePlusChar (c : Char) : List Char :=
  if isQuoteSafe c then [c]
  else if c == ' ' then ['+']
  else ((utf8Bytes c.toNat).map percentByte).flatten

/-- Embedding of `urllib.parse.quote_plus`. -/
def quote_plus (s : String) : String :=
  String.mk ((s.toList.map quotePlusChar).flatten)

/-- Embedding of `urllib.parse.urlencode`: `k=v` pairs joined by `&`, keys and values
escaped by `quote_plus`. -/
def urlencode (params : List (String × String)) : String :=
  String.intercalate "&" (params.map (fun p => quote_plus p.1 ++ "=" ++ quote_plus p.2))

/-! ## Authorization URL (`OAuthHandler.get_authorization_url`) -/

/-- The `params` dict literal of `get_authorization_url`, in source
order.  Note the hardcoded `redirect_uri`. -/
def OAuthHandler.authorizationParams (h : OAuthHandler)
    (state code_challenge : String) : List (String × String) :=
  [("client_id", h.client_id),
   ("response_type", "code"),
   ("redirect_uri", "http://localhost:8080/callback"),
   ("scope", String.intercalate " " h.scopes),
   ("state", state),
   ("code_challenge", code_challenge),
   ("code_challenge_method", "S256")]

/-- Embedding of `OAuthHandler.get_authorization_url`: generates a state when none is
supplied (`secrets.token_urlsafe(32)`, bytes supplied by `stateBytes`),
generates a PKCE pair (bytes supplied by `pkceBytes`), and returns
`(url, state, code_verifier)`. -/
def OAuthHandler.get_authorization_url (h : OAuthHandler)
    (sha256 : String → List Nat) (stateBytes pkceBytes : List Nat)
    (stateArg : Option String) : String × String × String :=
  let state := match stateArg with
    | none => token_urlsafe stateBytes
    | some s => s
  let pair := generate_pkce_pair sha256 pkceBytes
  (h.authorization_url ++ "?" ++ urlencode (h.authorizationParams state pair.2),
   state, pair.1)

/-! ## Token endpoint exchange (`exchange_code_for_token`,
`refresh_access_token`, `get_auth_headers`, `is_authenticated`) -/

/-- The request the handler sends to the upstream token endpoint
(the keyword arguments of `fetch_token` / `refresh_token`). -/
structure TokenRequest where
  grant_type : String
  code : Option String := none
  code_verifier : Option String := none
  redirect_uri : Option String := none
  refresh_token : Option String := none
  resource : String
  deriving DecidableEq, Repr

/-- The token response dict; `none` models an absent key. -/
structure TokenResponse where
  access_token : Option String := none
  refresh_token : Option String := none
  token_type : Option String := none
  scope : Option String := none
  deriving DecidableEq, Repr

/-- The `authorization_code` grant request built inside
`exchange_code_for_token`. -/
def OAuthHandler.tokenExchangeRequest (h : OAuthHandler)
    (code code_verifier redirect_uri : String) : TokenRequest :=
  { grant_type := "authorization_code"
    code := some code
    code_verifier := some code_verifier
    redirect_uri := some redirect_uri
    resource := h.resource_uri }

/-- The `refresh_token` grant request built inside
`refresh_access_token`. -/
def OAuthHandler.refreshRequest (h : OAuthHandler) : TokenRequest :=
  { grant_type := "refresh_token"
    refresh_token := h.refresh_token
    resource := h.resource_uri }

/-- Embedding of `OAuthHandler.exchange_code_for_token`: performs the
authorization_code grant; on success stores `token.get("access_token")`
and `token.get("refresh_token")` and returns the token; an upstream
error propagates and leaves the handler untouched. -/
def OAuthHandler.exchange_code_for_token (h : OAuthHandler)
    (code code_verifier redirect_uri : String)
    (upstream : TokenRequest → Except String TokenResponse) :
    Except String (TokenResponse × OAuthHandler) :=
  match upstream (h.tokenExchangeRequest code code_verifier redirect_uri) with
  | .error e => .error e
  | .ok token =>
      .ok (token, { h with access_token := token.access_token,
                           refresh_token := token.refresh_token })

/-- Embedding of `OAuthHandler.refresh_access_token`: raises
`ValueError("No refresh token available")` when no refresh token is
held (Python truthiness: `None` or `""`); otherwise performs the
refresh_token grant, stores `token.get("access_token")` and
`token.get("refresh_token", self.refresh_token)` and returns the
token.  The second component of the result is the handler state after
the call; on any error it is the unchanged input state. -/
def OAuthHandler.refresh_access_token (h : OAuthHandler)
    (upstream : TokenRequest → Except String TokenResponse) :
    Except String TokenResponse × OAuthHandler :=
  if strTruthy h.refresh_token = false then
    (.error "No refresh token available", h)
  else
    match upstream h.refreshRequest with
    | .error e => (.error e, h)
    | .ok token =>
        (.ok token,
         { h with access_token := token.access_token,
                  refresh_token := match token.refresh_token with
                    | some r => some r
                    | none => h.refresh_token })

/-- Embedding of `OAuthHandler.get_auth_headers`: raises
`ValueError("No access token available. Please authenticate first.")`
when the access token is falsy; otherwise returns the single
`Authorization: Bearer <token>` header.  A pure function of the
handler state: no network parameter. -/
def OAuthHandler.get_auth_headers (h : OAuthHandler) :
    Except String (List (String × String)) :=
  if strTruthy h.access_token = false then
    .error "No access token available. Please authenticate first."
  else
    .ok [("Authorization", "Bearer " ++ h.access_token.getD "")]

/-- Embedding of `OAuthHandler.is_authenticated`: `self.access_token is not None`. -/
def OAuthHandler.is_authenticated (h : OAuthHandler) : Bool :=
  h.access_token.isSome

/-! ## Session store and OAuth routes (`server.py`) -/

/-- The per-`state` session dict stored in `oauth_sessions`. -/
structure SessionData where
  code_verifier : String
  created_at : Nat
  expires_at : Nat
  deriving DecidableEq, Repr

/-- The store `oauth_sessions`: a Python dict, embedded as an association list
whose keys are unique. -/
abbrev SessionStore := List (String × SessionData)

/-- The keys of the store. -/
def storeKeys (store : SessionStore) : List String := store.map Prod.fst

/-- Dict read: the value at `k`, if present. -/
def storeLookup (store : SessionStore) (k : String) : Option SessionData :=
  (store.find? (fun p => p.1 == k)).map Prod.snd

/-- Embedding of `oauth_sessions.pop(state, None)`: the value at `state` (or `none`)
together with the store with that entry removed. -/
def session_pop (store : SessionStore) (state : String) :
    Option SessionData × SessionStore :=
  (storeLookup store state, store.eraseP (fun p => p.1 == state))

/-- Embedding of `oauth_sessions[state] = data`: dict insert (overwrites an existing
entry with the same key). -/
def storeInsert (store : SessionStore) (state : String) (data : SessionData) :
    SessionStore :=
  (state, data) :: store.eraseP (fun p => p.1 == state)

/-- Embedding of `cleanup_expired_sessions`: collects the states whose
`expires_at < now` (a strict comparison in the source) and pops each. -/
def cleanup_expired_sessions (now : Nat) (store : SessionStore) : SessionStore :=
  let expired := (store.filter (fun p => decide (p.2.expires_at < now))).map Prod.fst
  expired.foldl (fun st state => st.eraseP (fun p => p.1 == state)) store

/-- Embedding of `GET /oauth/authorize`: sweeps expired sessions, builds the
authorization URL, stores a new session keyed by its state with
`expires_at = now + 10` minutes, and redirects to the returned URL. -/
def oauth_authorize (now : Nat) (store : SessionStore) (handler : OAuthHandler)
    (sha256 : String → List Nat) (stateBytes pkceBytes : List Nat) :
    String × SessionStore :=
  let store := cleanup_expired_sessions now store
  let r := handler.get_authorization_url sha256 stateBytes pkceBytes none
  (r.1, storeInsert store r.2.1
    { code_verifier := r.2.2, created_at := now, expires_at := now + 10 })

/-- The query parameters of a callback request
(`request.query_params.get(...)`). -/
structure CallbackQuery where
  code : Option String := none
  state : Option String := none
  error : Option String := none
  deriving DecidableEq, Repr

/-- Which branch of `oauth_callback` produced the response.  The HTML
bodies of the source are abstracted to one constructor per distinct
page; the data each page interpolates is carried by the constructor. -/
inductive CallbackResponse where
  /-- The 400 page "OAuth Authorization Failed" showing the upstream
  `error` query value. -/
  | errorParam (error : String)
  /-- The 400 page "Missing authorization code or state parameter". -/
  | missingParams
  /-- The 400 page "Invalid or expired session". -/
  | invalidSession
  /-- The 500 page "OAuth Token Exchange Failed" showing the exception. -/
  | exchangeFailed (message : String)
  /-- The 200 success page. -/
  | success
  deriving DecidableEq, Repr

/-- The observable outcome of one `oauth_callback` request:
the response branch, its HTTP status, the session store and handler
after the request, and whether the token endpoint was contacted. -/
structure CallbackResult where
  response : CallbackResponse
  status : Nat
  store : SessionStore
  handler : OAuthHandler
  tokenEndpointCalled : Bool
  deriving Repr

/-- Embedding of `GET /oauth/callback`: sweeps expired sessions; a truthy `error`
query parameter short-circuits to the error page; missing (falsy)
`code` or `state` short-circuits to the missing-parameter page; an
unknown state (after the atomic `pop`) yields the invalid-session page;
otherwise the code is exchanged with
`redirect_uri = settings.oauth_redirect_uri`. -/
def oauth_callback (now : Nat) (store : SessionStore) (handler : OAuthHandler)
    (upstream : TokenRequest → Except String TokenResponse)
    (s : Settings) (q : CallbackQuery) : CallbackResult :=
  let store := cleanup_expired_sessions now store
  if strTruthy q.error then
    { response := .errorParam (q.error.getD ""), status := 400,
      store := store, handler := handler, tokenEndpointCalled := false }
  else if !strTruthy q.code || !strTruthy q.state then
    { response := .missingParams, status := 400,
      store := store, handler := handler, tokenEndpointCalled := false }
  else
    match session_pop store (q.state.getD "") with
    | (none, store) =>
        { response := .invalidSession, status := 400,
          store := store, handler := handler, tokenEndpointCalled := false }
    | (some session, store) =>
        match handler.exchange_code_for_token (q.code.getD "")
            session.code_verifier s.oauth_redirect_uri upstream with
        | .ok r =>
            { response := .success, status := 200,
              store := store, handler := r.2, tokenEndpointCalled := true }
        | .error e =>
            { response := .exchangeFailed e, status := 500,
              store := store, handler := handler, tokenEndpointCalled := true }

/-! ## Lemmas about the base64url encoder -/

theorem b64urlChar_mem (n : Nat) : b64urlChar n ∈ base64urlAlphabet := by
  unfold b64urlChar List.getD
  cases h : base64urlAlphabet.get? n with
  | none => simp; decide
  | some c => simpa using List.get?_mem h

theorem mem_b64urlEncode (bs : List Nat) :
    ∀ c ∈ b64urlEncode bs, c ∈ base64urlAlphabet := by
  induction bs using b64urlEncode.induct with
  | case1 => intro c hc; simp [b64urlEncode] at hc
  | case2 b1 =>
    intro c hc
    simp only [b64urlEncode, List.mem_cons, List.not_mem_nil, or_false] at hc
    rcases hc with h | h <;> (subst h; exact b64urlChar_mem _)
  | case3 b1 b2 =>
    intro c hc
    simp only [b64urlEncode, List.mem_cons, List.not_mem_nil, or_false] at hc
    rcases hc with h | h | h <;> (subst h; exact b64urlChar_mem _)
  | case4 b1 b2 b3 rest ih =>
    intro c hc
    simp only [b64urlEncode, List.mem_cons] at hc
    rcases hc with h | h | h | h | h
    · subst h; exact b64urlChar_mem _
    · subst h; exact b64urlChar_mem _
    · subst h; exact b64urlChar_mem _
    · subst h; exact b64urlChar_mem _
    · exact ih c h

theorem b64urlEncode_length (bs : List Nat) :
    (b64urlEncode bs).length =
      4 * (bs.length / 3) + (if bs.length % 3 = 0 then 0 else bs.length % 3 + 1) := by
  induction bs using b64urlEncode.induct with
  | case1 => simp [b64urlEncode]
  | case2 b1 => simp [b64urlEncode]
  | case3 b1 b2 => simp [b64urlEncode]
  | case4 b1 b2 b3 rest ih =>
    simp only [b64urlEncode, List.length_cons, ih]
    have h3 : (rest.length + 3) / 3 = rest.length / 3 + 1 := by omega
    have h4 : (rest.length + 3) % 3 = rest.length % 3 := by omega
    simp only [h3, h4]
    omega

theorem alphabet_unreserved : ∀ c ∈ base64urlAlphabet, isUnreservedUrlChar c = true := by
  decide

theorem alphabet_no_pad : '=' ∉ base64urlAlphabet := by decide

/-! ## Claim theorems: PKCE, authorization URL, redirect URI -/

/-- Claim C3: every PKCE pair produced by `generate_pkce_pair` (which
draws 64 random bytes, so at least the required 32 bytes of entropy)
has a verifier of at least 43 URL-safe unreserved characters, and a
challenge equal to the base64url encoding, without padding (`=` never
occurs), of the SHA-256 hash of that same verifier. -/
theorem generate_pkce_pair_spec (sha256 : String → List Nat) (rnd : List Nat)
    (hlen : rnd.length = 64) :
    43 ≤ (generate_pkce_pair sha256 rnd).1.length ∧
    (∀ c ∈ (generate_pkce_pair sha256 rnd).1.toList, isUnreservedUrlChar c = true) ∧
    (generate_pkce_pair sha256 rnd).2 =
      String.mk (b64urlEncode (sha256 (generate_pkce_pair sha256 rnd).1)) ∧
    '=' ∉ (generate_pkce_pair sha256 rnd).2.toList := by
  refine ⟨?_, ?_, rfl, ?_⟩
  · show 43 ≤ (b64urlEncode rnd).length
    rw [b64urlEncode_length, hlen]
    decide
  · intro c hc
    exact alphabet_unreserved _ (mem_b64urlEncode rnd c hc)
  · intro h
    exact alphabet_no_pad (mem_b64urlEncode _ _ h)

/-- Witness for `generate_pkce_pair_spec` at 64 zero bytes and a stub
32-byte hash function. -/
theorem generate_pkce_pair_spec_witness :
    (List.replicate 64 0).length = 64 ∧
    (43 ≤ (generate_pkce_pair (fun _ => List.replicate 32 0) (List.replicate 64 0)).1.length ∧
    (∀ c ∈ (generate_pkce_pair (fun _ => List.replicate 32 0)
        (List.replicate 64 0)).1.toList, isUnreservedUrlChar c = true) ∧
    (generate_pkce_pair (fun _ => List.replicate 32 0) (List.replicate 64 0)).2 =
      String.mk (b64urlEncode ((fun _ => List.replicate 32 0)
        ((generate_pkce_pair (fun _ => List.replicate 32 0) (List.replicate 64 0)).1))) ∧
    '=' ∉ (generate_pkce_pair (fun _ => List.replicate 32 0)
        (List.replicate 64 0)).2.toList) :=
  ⟨by decide, generate_pkce_pair_spec _ _ (by decide)⟩

/-- Claim C4: the URL returned by `get_authorization_url` is the
configured authorization endpoint followed by the urlencoding of
exactly the seven parameters `client_id` (the configured client id),
`response_type=code`, `redirect_uri`, `scope` (the configured scopes
joined by single spaces), `state` (the caller-supplied state, or the
freshly generated token when none is supplied), `code_challenge`, and
`code_challenge_method=S256`, and no others. -/
theorem authorization_url_params (s : Settings) (ruri : Option String)
    (sha256 : String → List Nat) (stateBytes pkceBytes : List Nat)
    (stateArg : Option String) :
    ((OAuthHandler.init s ruri).get_authorization_url sha256 stateBytes
        pkceBytes stateArg).1
      = s.oauth_authorization_url ++ "?" ++ urlencode
        [("client_id", s.oauth_client_id),
         ("response_type", "code"),
         ("redirect_uri", "http://localhost:8080/callback"),
         ("scope", String.intercalate " " s.oauth_scopes_list),
         ("state", ((OAuthHandler.init s ruri).get_authorization_url sha256
            stateBytes pkceBytes stateArg).2.1),
         ("code_challenge", create_s256_code_challenge sha256 (token_urlsafe pkceBytes)),
         ("code_challenge_method", "S256")] ∧
    ((OAuthHandler.init s ruri).get_authorization_url sha256 stateBytes
        pkceBytes stateArg).2.1
      = (match stateArg with
          | some st => st
          | none => token_urlsafe stateBytes) ∧
    ((OAuthHandler.init s ruri).get_authorization_url sha256 stateBytes
        pkceBytes stateArg).2.2 = token_urlsafe pkceBytes := by
  cases stateArg <;> exact ⟨rfl, rfl, rfl⟩

/-- Claim C1 is false of the code (code bug): under the default
settings, the authorization URL carries the hardcoded
`redirect_uri=http://localhost:8080/callback`, while `/oauth/callback`
passes `settings.oauth_redirect_uri = http://localhost:8000/oauth/callback`
to `exchange_code_for_token` (observed here by a probe upstream that
echoes the `redirect_uri` it receives); the two strings are not
byte-identical. -/
theorem redirect_uri_mismatch :
    List.lookup "redirect_uri"
      ((OAuthHandler.init defaultSettings none).authorizationParams "st" "ch")
      = some "http://localhost:8080/callback" ∧
    (oauth_callback 0 [("st", ⟨"v", 0, 10⟩)] (OAuthHandler.init defaultSettings none)
        (fun req => .error (req.redirect_uri.getD "missing")) defaultSettings
        { code := some "c", state := some "st", error := none }).response
      = .exchangeFailed "http://localhost:8000/oauth/callback" ∧
    "http://localhost:8080/callback" ≠ "http://localhost:8000/oauth/callback" := by
  exact ⟨rfl, by decide, by decide⟩

/-! ## Lemmas about the session store -/

theorem lookup_eq_none_of_not_mem_keys (store : SessionStore) (k : String)
    (h : k ∉ storeKeys store) : storeLookup store k = none := by
  unfold storeLookup
  rw [Option.map_eq_none', List.find?_eq_none]
  intro p hp hbeq
  exact h (List.mem_map.mpr ⟨p, hp, by simpa using hbeq⟩)

theorem lookup_filter_first (store : SessionStore) (k : String) (d : SessionData)
    (pred : String × SessionData → Bool)
    (hl : storeLookup store k = some d) (hp : pred (k, d) = true) :
    storeLookup (store.filter pred) k = some d := by
  induction store with
  | nil => simp [storeLookup] at hl
  | cons a t ih =>
    by_cases hak : a.1 = k
    · have hd : a.2 = d := by
        simpa [storeLookup, List.find?_cons_of_pos, hak] using hl
      have ha : a = (k, d) := by
        cases a; simp_all
      rw [List.filter_cons_of_pos (by rw [ha]; exact hp)]
      simp [storeLookup, List.find?_cons_of_pos, hak, hd]
    · have hl' : storeLookup t k = some d := by
        simpa [storeLookup, List.find?_cons_of_neg, hak] using hl
      by_cases hpa : pred a = true
      · rw [List.filter_cons_of_pos hpa]
        simpa [storeLookup, List.find?_cons_of_neg, hak] using ih hl'
      · rw [List.filter_cons_of_neg (by simpa using hpa)]
        exact ih hl'

theorem eraseP_key_eq_filter (store : SessionStore) (k : String)
    (h : (storeKeys store).Nodup) :
    store.eraseP (fun p => p.1 == k) = store.filter (fun p => !(p.1 == k)) := by
  induction store with
  | nil => rfl
  | cons a t ih =>
    rw [storeKeys, List.map_cons, List.nodup_cons] at h
    by_cases hak : a.1 = k
    · rw [List.eraseP_cons_of_pos (by simp [hak]),
        List.filter_cons_of_neg (by simp [hak])]
      have : ∀ p ∈ t, (!(p.1 == k)) = true := by
        intro p hp
        have : p.1 ≠ k := fun hpk => h.1 (hak ▸ hpk ▸ List.mem_map_of_mem Prod.fst hp)
        simp [this]
      rw [List.filter_congr this, List.filter_true]
    · rw [List.eraseP_cons_of_neg (by simp [hak]),
        List.filter_cons_of_pos (by simp [hak]), ih h.2]

theorem lookup_eraseP_self (store : SessionStore) (k : String)
    (h : (storeKeys store).Nodup) :
    storeLookup (store.eraseP (fun p => p.1 == k)) k = none := by
  induction store with
  | nil => rfl
  | cons a t ih =>
    rw [storeKeys, List.map_cons, List.nodup_cons] at h
    by_cases hak : a.1 = k
    · rw [List.eraseP_cons_of_pos (by simp [hak])]
      exact lookup_eq_none_of_not_mem_keys t k (hak ▸ h.1)
    · rw [List.eraseP_cons_of_neg (by simp [hak])]
      simpa [storeLookup, List.find?_cons_of_neg, hak] using ih h.2

theorem foldl_eraseP_sublist (ks : List String) (store : SessionStore) :
    List.Sublist (ks.foldl (fun st state => st.eraseP (fun p => p.1 == state)) store) store := by
  induction ks generalizing store with
  | nil => exact List.Sublist.refl store
  | cons k ks ih =>
    rw [List.foldl_cons]
    exact (ih _).trans (List.eraseP_sublist store)

theorem cleanup_sublist (now : Nat) (store : SessionStore) :
    List.Sublist (cleanup_expired_sessions now store) store :=
  foldl_eraseP_sublist _ store

theorem storeKeys_nodup_of_sublist {s t : SessionStore} (hsub : List.Sublist s t)
    (h : (storeKeys t).Nodup) : (storeKeys s).Nodup :=
  (hsub.map Prod.fst).nodup h

theorem foldl_eraseP_eq_filter (ks : List String) (store : SessionStore)
    (h : (storeKeys store).Nodup) :
    ks.foldl (fun st state => st.eraseP (fun p => p.1 == state)) store
      = store.filter (fun p => !(ks.contains p.1)) := by
  induction ks generalizing store with
  | nil => simp
  | cons k ks ih =>
    rw [List.foldl_cons, eraseP_key_eq_filter store k h,
      ih _ (storeKeys_nodup_of_sublist (List.filter_sublist store) h),
      List.filter_filter]
    refine List.filter_congr ?_
    intro p _
    rw [List.contains_cons]
    cases hpk : p.1 == k <;> cases hks : ks.contains p.1 <;> simp [hpk, hks]

theorem lookup_none_of_sublist {s t : SessionStore} (hsub : List.Sublist s t) (k : String)
    (h : storeLookup t k = none) : storeLookup s k = none := by
  unfold storeLookup at h ⊢
  rw [Option.map_eq_none', List.find?_eq_none] at h ⊢
  exact fun x hx => h x (hsub.subset hx)

/-- The sweep is exactly a filter for the strict predicate: it removes
the sessions whose `expires_at < now`, and only those. -/
theorem cleanup_eq_filter (now : Nat) (store : SessionStore)
    (h : (storeKeys store).Nodup) :
    cleanup_expired_sessions now store
      = store.filter (fun p => !(decide (p.2.expires_at < now))) := by
  unfold cleanup_expired_sessions
  rw [foldl_eraseP_eq_filter _ _ h]
  refine List.filter_congr ?_
  intro p hp
  have hmem : ((store.filter (fun q => decide (q.2.expires_at < now))).map
        Prod.fst).contains p.1 = decide (p.2.expires_at < now) := by
    by_cases hexp : p.2.expires_at < now
    · have hin : p.1 ∈ (store.filter
          (fun q => decide (q.2.expires_at < now))).map Prod.fst :=
        List.mem_map_of_mem Prod.fst (List.mem_filter.mpr ⟨hp, by simp [hexp]⟩)
      simp [List.contains, List.elem_eq_mem, hin, hexp]
    · have hout : p.1 ∉ (store.filter
          (fun q => decide (q.2.expires_at < now))).map Prod.fst := by
        intro hmem
        rcases List.mem_map.mp hmem with ⟨q, hq, hqk⟩
        rcases List.mem_filter.mp hq with ⟨hqmem, hqexp⟩
        have hqp : q = p := List.inj_on_of_nodup_map h hqmem hp hqk
        rw [hqp] at hqexp
        exact hexp (by simpa using hqexp)
      simp [List.contains, List.elem_eq_mem, hout, hexp]
  rw [hmem]

theorem lookup_cleanup (now : Nat) (store : SessionStore) (k : String)
    (d : SessionData) (h : (storeKeys store).Nodup)
    (hl : storeLookup store k = some d) (hlive : ¬ d.expires_at < now) :
    storeLookup (cleanup_expired_sessions now store) k = some d := by
  rw [cleanup_eq_filter now store h]
  exact lookup_filter_first store k d _ hl (by simp [hlive])

theorem storeInsert_nil (k : String) (d : SessionData) :
    storeInsert [] k d = [(k, d)] := rfl

theorem oauth_authorize_store (now : Nat) (store : SessionStore)
    (handler : OAuthHandler) (sha256 : String → List Nat)
    (stateBytes pkceBytes : List Nat) :
    (oauth_authorize now store handler sha256 stateBytes pkceBytes).2
      = storeInsert (cleanup_expired_sessions now store)
          (handler.get_authorization_url sha256 stateBytes pkceBytes none).2.1
          { code_verifier :=
              (handler.get_authorization_url sha256 stateBytes pkceBytes none).2.2,
            created_at := now, expires_at := now + 10 } := rfl

theorem cleanup_nil (now : Nat) : cleanup_expired_sessions now [] = [] := rfl

/-! ## Claim theorems: session sweep and single-use sessions -/

/-- Claim C5 as stated is false at the boundary instant: the source
compares strictly (`expires_at < now`), so a session whose
`expires_at` equals `now` is NOT removed even though the claim demands
removal of every session with `expires_at <= now`. -/
theorem cleanup_boundary_counterexample :
    ¬ (∀ (now : Nat) (store : SessionStore), (storeKeys store).Nodup →
        cleanup_expired_sessions now store
          = store.filter (fun p => !(decide (p.2.expires_at ≤ now)))) := by
  intro hclaim
  have h := hclaim 100 [("s", ⟨"v", 0, 100⟩)] (by decide)
  exact absurd h (by decide)

/-- Claim C5, amended: the sweep removes exactly the sessions whose
`expires_at` is strictly before `now` and leaves all others in the
store (so a session with `expires_at = now` is retained); in
particular, the session created by `/oauth/authorize` with its
10-minute TTL is removed by a sweep at `created_at + 11` minutes and
is not removed by a sweep at `created_at + 9` minutes. -/
theorem cleanup_removes_strictly_expired (now : Nat) (store : SessionStore)
    (h : (storeKeys store).Nodup) :
    cleanup_expired_sessions now store
      = store.filter (fun p => !(decide (p.2.expires_at < now))) ∧
    (∀ (now0 : Nat) (handler : OAuthHandler) (sha256 : String → List Nat)
        (stateBytes pkceBytes : List Nat),
      cleanup_expired_sessions (now0 + 11)
          (oauth_authorize now0 [] handler sha256 stateBytes pkceBytes).2 = [] ∧
      cleanup_expired_sessions (now0 + 9)
          (oauth_authorize now0 [] handler sha256 stateBytes pkceBytes).2
        = (oauth_authorize now0 [] handler sha256 stateBytes pkceBytes).2) := by
  refine ⟨cleanup_eq_filter now store h, ?_⟩
  intro now0 handler sha256 stateBytes pkceBytes
  rw [oauth_authorize_store, cleanup_nil, storeInsert_nil]
  have hn : (storeKeys [((handler.get_authorization_url sha256 stateBytes
      pkceBytes none).2.1,
      ({ code_verifier :=
           (handler.get_authorization_url sha256 stateBytes pkceBytes none).2.2,
         created_at := now0, expires_at := now0 + 10 } : SessionData))]).Nodup :=
    List.nodup_singleton _
  constructor
  · rw [cleanup_eq_filter _ _ hn]
    have hd : decide (now0 + 10 < now0 + 11) = true := decide_eq_true (by omega)
    simp [List.filter_cons, hd]
  · rw [cleanup_eq_filter _ _ hn]
    have hd : decide (now0 + 10 < now0 + 9) = false := decide_eq_false (by omega)
    simp [List.filter_cons, hd]

/-- Witness for `cleanup_removes_strictly_expired` on a concrete
two-session store swept at time 5. -/
theorem cleanup_removes_strictly_expired_witness :
    (storeKeys [("a", ⟨"v", 0, 3⟩), ("b", ⟨"w", 0, 9⟩)]).Nodup ∧
    (cleanup_expired_sessions 5 [("a", ⟨"v", 0, 3⟩), ("b", ⟨"w", 0, 9⟩)]
      = [("a", ⟨"v", 0, 3⟩), ("b", ⟨"w", 0, 9⟩)].filter
          (fun p => !(decide (p.2.expires_at < 5))) ∧
    (∀ (now0 : Nat) (handler : OAuthHandler) (sha256 : String → List Nat)
        (stateBytes pkceBytes : List Nat),
      cleanup_expired_sessions (now0 + 11)
          (oauth_authorize now0 [] handler sha256 stateBytes pkceBytes).2 = [] ∧
      cleanup_expired_sessions (now0 + 9)
          (oauth_authorize now0 [] handler sha256 stateBytes pkceBytes).2
        = (oauth_authorize now0 [] handler sha256 stateBytes pkceBytes).2)) :=
  ⟨by decide, cleanup_removes_strictly_expired 5 _ (by decide)⟩

/-- Evaluation of `/oauth/callback` when the (swept) store has no
session for the presented state: the invalid-session page. -/
theorem oauth_callback_unknown_state (now : Nat) (store : SessionStore)
    (handler : OAuthHandler)
    (upstream : TokenRequest → Except String TokenResponse) (s : Settings)
    (st code : String) (hcode : code ≠ "") (hst : st ≠ "")
    (hnone : storeLookup (cleanup_expired_sessions now store) st = none) :
    oauth_callback now store handler upstream s
        { code := some code, state := some st, error := none }
      = { response := .invalidSession, status := 400,
          store := (cleanup_expired_sessions now store).eraseP (fun p => p.1 == st),
          handler := handler, tokenEndpointCalled := false } := by
  unfold oauth_callback session_pop
  simp [strTruthy, hcode, hst, hnone]

/-- Evaluation of `/oauth/callback` when the (swept) store holds a
session for the presented state: the session is popped and the code is
exchanged with `redirect_uri = s.oauth_redirect_uri`. -/
theorem oauth_callback_known_state (now : Nat) (store : SessionStore)
    (handler : OAuthHandler)
    (upstream : TokenRequest → Except String TokenResponse) (s : Settings)
    (st code : String) (d : SessionData) (hcode : code ≠ "") (hst : st ≠ "")
    (hsome : storeLookup (cleanup_expired_sessions now store) st = some d) :
    oauth_callback now store handler upstream s
        { code := some code, state := some st, error := none }
      = (match handler.exchange_code_for_token code d.code_verifier
            s.oauth_redirect_uri upstream with
        | .ok r =>
          { response := .success, status := 200,
            store := (cleanup_expired_sessions now store).eraseP
              (fun p => p.1 == st),
            handler := r.2, tokenEndpointCalled := true }
        | .error e =>
          { response := .exchangeFailed e, status := 500,
            store := (cleanup_expired_sessions now store).eraseP
              (fun p => p.1 == st),
            handler := handler, tokenEndpointCalled := true }) := by
  unfold oauth_callback session_pop
  simp [strTruthy, hcode, hst, hsome]

/-- Claim C2: when a live pending session exists for `st`, the first
callback for `st` consumes it (the exchange branch runs and the entry
keyed by `st` is removed from the store it returns) and a second
callback for the same `st`, against the store left by the first, finds
no session and answers with the invalid-session error. -/
theorem session_resolved_once (now now2 : Nat) (store : SessionStore)
    (handler handler2 : OAuthHandler)
    (upstream upstream2 : TokenRequest → Except String TokenResponse)
    (s s2 : Settings) (st code : String) (d : SessionData)
    (hnodup : (storeKeys store).Nodup)
    (hcode : code ≠ "") (hst : st ≠ "")
    (hfound : storeLookup store st = some d)
    (hlive : ¬ d.expires_at < now) :
    (oauth_callback now store handler upstream s
        { code := some code, state := some st, error := none }).tokenEndpointCalled
      = true ∧
    storeLookup (oauth_callback now store handler upstream s
        { code := some code, state := some st, error := none }).store st = none ∧
    (oauth_callback now2
        (oauth_callback now store handler upstream s
          { code := some code, state := some st, error := none }).store
        handler2 upstream2 s2
        { code := some code, state := some st, error := none }).response
      = CallbackResponse.invalidSession := by
  have hC : storeLookup (cleanup_expired_sessions now store) st = some d :=
    lookup_cleanup now store st d hnodup hfound hlive
  have hCn : (storeKeys (cleanup_expired_sessions now store)).Nodup :=
    storeKeys_nodup_of_sublist (cleanup_sublist now store) hnodup
  rw [oauth_callback_known_state now store handler upstream s st code d
    hcode hst hC]
  have hE : storeLookup ((cleanup_expired_sessions now store).eraseP
      (fun p => p.1 == st)) st = none :=
    lookup_eraseP_self _ _ hCn
  cases hx : handler.exchange_code_for_token code d.code_verifier
      s.oauth_redirect_uri upstream with
  | ok r =>
    refine ⟨rfl, hE, ?_⟩
    rw [oauth_callback_unknown_state now2 _ handler2 upstream2 s2 st code
      hcode hst (lookup_none_of_sublist (cleanup_sublist now2 _) st hE)]
  | error e =>
    refine ⟨rfl, hE, ?_⟩
    rw [oauth_callback_unknown_state now2 _ handler2 upstream2 s2 st code
      hcode hst (lookup_none_of_sublist (cleanup_sublist now2 _) st hE)]

/-- Witness for `session_resolved_once` on a concrete one-session
store. -/
theorem session_resolved_once_witness :
    (storeKeys [("st1", ⟨"ver", 0, 10⟩)]).Nodup ∧
    "code1" ≠ "" ∧ "st1" ≠ "" ∧
    storeLookup [("st1", ⟨"ver", 0, 10⟩)] "st1" = some ⟨"ver", 0, 10⟩ ∧
    ¬ (⟨"ver", 0, 10⟩ : SessionData).expires_at < 0 ∧
    ((oauth_callback 0 [("st1", ⟨"ver", 0, 10⟩)] (OAuthHandler.init defaultSettings none)
        (fun _ => .ok {}) defaultSettings
        { code := some "code1", state := some "st1", error := none }).tokenEndpointCalled
      = true ∧
    storeLookup (oauth_callback 0 [("st1", ⟨"ver", 0, 10⟩)]
        (OAuthHandler.init defaultSettings none) (fun _ => .ok {}) defaultSettings
        { code := some "code1", state := some "st1", error := none }).store "st1" = none ∧
    (oauth_callback 0
        (oauth_callback 0 [("st1", ⟨"ver", 0, 10⟩)]
          (OAuthHandler.init defaultSettings none) (fun _ => .ok {}) defaultSettings
          { code := some "code1", state := some "st1", error := none }).store
        (OAuthHandler.init defaultSettings none) (fun _ => .ok {}) defaultSettings
        { code := some "code1", state := some "st1", error := none }).response
      = CallbackResponse.invalidSession) :=
  ⟨by decide, by decide, by decide, by decide, by decide,
    session_resolved_once 0 0 [("st1", ⟨"ver", 0, 10⟩)]
      (OAuthHandler.init defaultSettings none) (OAuthHandler.init defaultSettings none)
      (fun _ => .ok {}) (fun _ => .ok {}) defaultSettings defaultSettings
      "st1" "code1" ⟨"ver", 0, 10⟩
      (by decide) (by decide) (by decide) (by decide) (by decide)⟩

/-! ## Claim theorems: callback error branch and token state -/

/-- Claim C9: a callback request whose query carries a (non-empty)
`error` parameter is answered with the upstream-error failure page,
the token endpoint is never contacted, the handler is untouched, and
the failure is signalled distinctly from the unknown-or-expired-state
session error. -/
theorem callback_error_short_circuit (now : Nat) (store : SessionStore)
    (handler : OAuthHandler)
    (upstream : TokenRequest → Except String TokenResponse) (s : Settings)
    (q : CallbackQuery) (e : String) (he : q.error = some e) (hne : e ≠ "") :
    (oauth_callback now store handler upstream s q).response
      = CallbackResponse.errorParam e ∧
    (oauth_callback now store handler upstream s q).tokenEndpointCalled = false ∧
    (oauth_callback now store handler upstream s q).status = 400 ∧
    (oauth_callback now store handler upstream s q).handler = handler ∧
    CallbackResponse.errorParam e ≠ CallbackResponse.invalidSession := by
  unfold oauth_callback
  simp [strTruthy, he, hne]

/-- Witness for `callback_error_short_circuit` on a concrete
`?error=access_denied` request. -/
theorem callback_error_short_circuit_witness :
    ({ code := none, state := none, error := some "access_denied" }
        : CallbackQuery).error = some "access_denied" ∧
    "access_denied" ≠ "" ∧
    ((oauth_callback 0 [] (OAuthHandler.init defaultSettings none)
        (fun _ => .ok {}) defaultSettings
        { code := none, state := none, error := some "access_denied" }).response
      = CallbackResponse.errorParam "access_denied" ∧
    (oauth_callback 0 [] (OAuthHandler.init defaultSettings none)
        (fun _ => .ok {}) defaultSettings
        { code := none, state := none, error := some "access_denied" }).tokenEndpointCalled
      = false ∧
    (oauth_callback 0 [] (OAuthHandler.init defaultSettings none)
        (fun _ => .ok {}) defaultSettings
        { code := none, state := none, error := some "access_denied" }).status = 400 ∧
    (oauth_callback 0 [] (OAuthHandler.init defaultSettings none)
        (fun _ => .ok {}) defaultSettings
        { code := none, state := none, error := some "access_denied" }).handler
      = OAuthHandler.init defaultSettings none ∧
    CallbackResponse.errorParam "access_denied" ≠ CallbackResponse.invalidSession) :=
  ⟨rfl, by decide,
    callback_error_short_circuit 0 [] (OAuthHandler.init defaultSettings none)
      (fun _ => .ok {}) defaultSettings
      { code := none, state := none, error := some "access_denied" }
      "access_denied" rfl (by decide)⟩

/-- Claim C6: `get_auth_headers` fails with the "No access token"
precondition error exactly when the held access token is absent or
empty, and otherwise returns exactly the singleton
`Authorization: Bearer <token>` dictionary — it is a pure function of
the handler state (it takes no upstream parameter, so no network call
is possible); and after a successful `exchange_code_for_token` whose
upstream response carries `access_token = "tok_123"`,
`is_authenticated` reports true and `get_auth_headers` returns
`{"Authorization": "Bearer tok_123"}`. -/
theorem get_auth_headers_spec :
    (∀ h : OAuthHandler, strTruthy h.access_token = false →
      h.get_auth_headers
        = .error "No access token available. Please authenticate first.") ∧
    (∀ (h : OAuthHandler) (t : String), h.access_token = some t → t ≠ "" →
      h.get_auth_headers = .ok [("Authorization", "Bearer " ++ t)]) ∧
    (∀ (h : OAuthHandler)
        (upstream : TokenRequest → Except String TokenResponse)
        (code cv ru : String) (resp : TokenResponse),
      upstream (h.tokenExchangeRequest code cv ru) = .ok resp →
      resp.access_token = some "tok_123" →
      h.exchange_code_for_token code cv ru upstream
        = .ok (resp, { h with access_token := resp.access_token,
                              refresh_token := resp.refresh_token }) ∧
      ({ h with access_token := resp.access_token,
                refresh_token := resp.refresh_token } : OAuthHandler).is_authenticated
        = true ∧
      ({ h with access_token := resp.access_token,
                refresh_token := resp.refresh_token } : OAuthHandler).get_auth_headers
        = .ok [("Authorization", "Bearer tok_123")]) := by
  refine ⟨?_, ?_, ?_⟩
  · intro h hf
    unfold OAuthHandler.get_auth_headers
    rw [if_pos hf]
  · intro h t ht hne
    unfold OAuthHandler.get_auth_headers
    simp [strTruthy, ht, hne]
  · intro h upstream code cv ru resp hup hresp
    refine ⟨?_, ?_, ?_⟩
    · unfold OAuthHandler.exchange_code_for_token
      rw [hup]
    · simp [OAuthHandler.is_authenticated, hresp]
    · simp only [hresp]
      rfl

/-- Witness for `get_auth_headers_spec` on a fresh handler, a handler
holding the token "tok", and an exchange answered with "tok_123". -/
theorem get_auth_headers_spec_witness :
    ((OAuthHandler.init defaultSettings none).get_auth_headers
      = .error "No access token available. Please authenticate first.") ∧
    (({ OAuthHandler.init defaultSettings none with access_token := some "tok" }
        : OAuthHandler).get_auth_headers = .ok [("Authorization", "Bearer " ++ "tok")]) ∧
    ((OAuthHandler.init defaultSettings none).exchange_code_for_token "c" "v" "r"
        (fun _ => .ok { access_token := some "tok_123", refresh_token := some "ref_456",
                        token_type := some "bearer", scope := some "read:user" })
      = .ok ({ access_token := some "tok_123", refresh_token := some "ref_456",
               token_type := some "bearer", scope := some "read:user" },
             { OAuthHandler.init defaultSettings none with
                access_token := some "tok_123", refresh_token := some "ref_456" }) ∧
    ({ OAuthHandler.init defaultSettings none with
        access_token := some "tok_123",
        refresh_token := some "ref_456" } : OAuthHandler).is_authenticated = true ∧
    ({ OAuthHandler.init defaultSettings none with
        access_token := some "tok_123",
        refresh_token := some "ref_456" } : OAuthHandler).get_auth_headers
      = .ok [("Authorization", "Bearer tok_123")]) :=
  ⟨get_auth_headers_spec.1 (OAuthHandler.init defaultSettings none) rfl,
   get_auth_headers_spec.2.1 _ "tok" rfl (by decide),
   get_auth_headers_spec.2.2 (OAuthHandler.init defaultSettings none)
     (fun _ => .ok { access_token := some "tok_123", refresh_token := some "ref_456",
                     token_type := some "bearer", scope := some "read:user" })
     "c" "v" "r" _ rfl rfl⟩

/-- Claim C7: on a successful refresh, the access token is replaced by
the response's; when the response omits `refresh_token` the previously
held refresh token is retained unchanged, and when the response
carries one, that value replaces the prior one. -/
theorem refresh_token_rotation (h : OAuthHandler)
    (upstream : TokenRequest → Except String TokenResponse)
    (resp : TokenResponse)
    (hheld : strTruthy h.refresh_token = true)
    (hup : upstream h.refreshRequest = .ok resp) :
    (h.refresh_access_token upstream).1 = .ok resp ∧
    (h.refresh_access_token upstream).2.access_token = resp.access_token ∧
    (resp.refresh_token = none →
      (h.refresh_access_token upstream).2.refresh_token = h.refresh_token) ∧
    (∀ r, resp.refresh_token = some r →
      (h.refresh_access_token upstream).2.refresh_token = some r) := by
  have hbase : h.refresh_access_token upstream
      = (.ok resp, { h with
                     access_token := resp.access_token,
                     refresh_token := (match resp.refresh_token with
                       | some r => some r
                       | none => h.refresh_token) }) := by
    unfold OAuthHandler.refresh_access_token
    rw [if_neg (by simp [hheld]), hup]
  rw [hbase]
  refine ⟨rfl, rfl, ?_, ?_⟩
  · intro hr
    simp [hr]
  · intro r hr
    simp [hr]

/-- Witness for `refresh_token_rotation`: a refresh answered without a
new refresh token retains "ref_456". -/
theorem refresh_token_rotation_witness :
    strTruthy ({ OAuthHandler.init defaultSettings none with
        refresh_token := some "ref_456" } : OAuthHandler).refresh_token = true ∧
    (({ OAuthHandler.init defaultSettings none with
        refresh_token := some "ref_456" } : OAuthHandler).refresh_access_token
        (fun _ => .ok { access_token := some "new_tok" })).1
      = .ok { access_token := some "new_tok" } ∧
    (({ OAuthHandler.init defaultSettings none with
        refresh_token := some "ref_456" } : OAuthHandler).refresh_access_token
        (fun _ => .ok { access_token := some "new_tok" })).2.access_token
      = ({ access_token := some "new_tok" } : TokenResponse).access_token ∧
    (({ access_token := some "new_tok" } : TokenResponse).refresh_token = none →
      (({ OAuthHandler.init defaultSettings none with
          refresh_token := some "ref_456" } : OAuthHandler).refresh_access_token
          (fun _ => .ok { access_token := some "new_tok" })).2.refresh_token
        = ({ OAuthHandler.init defaultSettings none with
            refresh_token := some "ref_456" } : OAuthHandler).refresh_token) ∧
    (∀ r, ({ access_token := some "new_tok" } : TokenResponse).refresh_token = some r →
      (({ OAuthHandler.init defaultSettings none with
          refresh_token := some "ref_456" } : OAuthHandler).refresh_access_token
          (fun _ => .ok { access_token := some "new_tok" })).2.refresh_token
        = some r) :=
  ⟨by decide,
   refresh_token_rotation
     { OAuthHandler.init defaultSettings none with refresh_token := some "ref_456" }
     (fun _ => .ok { access_token := some "new_tok" })
     { access_token := some "new_tok" } (by decide) rfl⟩

/-- Claim C8: `refresh_access_token` while no (non-empty) refresh token
is held fails with exactly the specific "No refresh token available"
error, the result is the same whatever the token endpoint would have
answered (so no upstream request is consulted), and the handler state
is returned unchanged. -/
theorem refresh_without_token_fails (h : OAuthHandler)
    (hnone : strTruthy h.refresh_token = false) :
    ∀ upstream : TokenRequest → Except String TokenResponse,
      h.refresh_access_token upstream
        = (.error "No refresh token available", h) := by
  intro upstream
  unfold OAuthHandler.refresh_access_token
  rw [if_pos hnone]

/-- Witness for `refresh_without_token_fails` on a fresh handler. -/
theorem refresh_without_token_fails_witness :
    strTruthy (OAuthHandler.init defaultSettings none).refresh_token = false ∧
    (OAuthHandler.init defaultSettings none).refresh_access_token
        (fun _ => .ok { access_token := some "tok" })
      = (.error "No refresh token available", OAuthHandler.init defaultSettings none) :=
  ⟨rfl, refresh_without_token_fails (OAuthHandler.init defaultSettings none) rfl
    (fun _ => .ok { access_token := some "tok" })⟩

/-- Claim C10: after an exchange whose upstream response carries
`access_token = ""`, the two public checks disagree:
`is_authenticated` (which tests only non-`None`-ness) returns true
while `get_auth_headers` (which tests truthiness) fails with the
"No access token available" precondition error — so
`is_authenticated = true` does not guarantee `get_auth_headers`
succeeds. -/
theorem empty_access_token_quirk (h : OAuthHandler)
    (upstream : TokenRequest → Except String TokenResponse)
    (code cv ru : String) (resp : TokenResponse)
    (hup : upstream (h.tokenExchangeRequest code cv ru) = .ok resp)
    (hempty : resp.access_token = some "") :
    h.exchange_code_for_token code cv ru upstream
      = .ok (resp, { h with access_token := resp.access_token,
                            refresh_token := resp.refresh_token }) ∧
    ({ h with access_token := resp.access_token,
              refresh_token := resp.refresh_token } : OAuthHandler).is_authenticated
      = true ∧
    ({ h with access_token := resp.access_token,
              refresh_token := resp.refresh_token } : OAuthHandler).get_auth_headers
      = .error "No access token available. Please authenticate first." := by
  refine ⟨?_, ?_, ?_⟩
  · unfold OAuthHandler.exchange_code_for_token
    rw [hup]
  · simp [OAuthHandler.is_authenticated, hempty]
  · simp only [hempty]
    rfl

/-- Witness for `empty_access_token_quirk` with a concrete empty-token
response. -/
theorem empty_access_token_quirk_witness :
    (OAuthHandler.init defaultSettings none).exchange_code_for_token "c" "v" "r"
        (fun _ => .ok { access_token := some "" })
      = .ok (({ access_token := some "" } : TokenResponse),
             { OAuthHandler.init defaultSettings none with
                access_token := some "", refresh_token := none }) ∧
    ({ OAuthHandler.init defaultSettings none with
        access_token := some "", refresh_token := none }
        : OAuthHandler).is_authenticated = true ∧
    ({ OAuthHandler.init defaultSettings none with
        access_token := some "", refresh_token := none }
        : OAuthHandler).get_auth_headers
      = .error "No access token available. Please authenticate first." :=
  empty_access_token_quirk (OAuthHandler.init defaultSettings none)
    (fun _ => .ok { access_token := some "" }) "c" "v" "r"
    { access_token := some "" } rfl rfl

end MCPOAuth
